import Mathlib

/-!
Verification of the go-ensign stream lifecycle managers (`stream/publisher.go`,
the Subscriber manager, and `event.go`) against the repository specification.

The Go code is shallowly embedded: machine bytes are `Nat` values reduced
`% 256` where Go byte arithmetic truncates, Go maps are association lists,
fallible Go functions return an error component, and the state mutated by the
manager goroutines (the stream handle, the pending correlation map, the fatal
error slot) is threaded explicitly through pure functions.  Concurrency is
modelled by explicit interleavings of the atomic steps that the Go code
performs under its locks.
-/

namespace GoEnsign

/-- Errors used by the client.  `streamUninitialized`, `reconnect` and
`resolveTopic` embed the sentinel errors of `stream/errors.go`; `cannotAck`
embeds `ErrCannotAck` of `errors.go`; `dataSize` and `overflow` embed the
errors of the oklog/ulid dependency; `transport n` stands for an arbitrary
gRPC transport error and `eof` for `io.EOF`. -/
inductive GoError where
  | streamUninitialized
  | reconnect
  | resolveTopic
  | cannotAck
  | overwrite
  | dataSize
  | overflow
  | transport (n : Nat)
  | eof
deriving DecidableEq

/-- Result of a Go call that may return normally, return an error, or panic.
Panics are modelled by the `crash` constructor and never conflated with
returned errors. -/
inductive GoResult (α : Type) where
  | ok (a : α)
  | err (e : GoError)
  | crash
deriving DecidableEq

/-- Crockford base32 decode table of the oklog/ulid dependency (`dec` in
ulid.go): digits map to 0-9, letters map to 10-31 skipping I, L, O and U,
case-insensitively; every other byte maps to 0xFF. -/
def ulidDecByte (b : Nat) : Nat :=
  if 48 ≤ b ∧ b ≤ 57 then b - 48
  else if 65 ≤ b ∧ b ≤ 72 then b - 55
  else if b = 74 ∨ b = 75 then b - 56
  else if b = 77 ∨ b = 78 then b - 57
  else if 80 ≤ b ∧ b ≤ 84 then b - 58
  else if 86 ≤ b ∧ b ≤ 90 then b - 59
  else if 97 ≤ b ∧ b ≤ 104 then b - 87
  else if b = 106 ∨ b = 107 then b - 88
  else if b = 109 ∨ b = 110 then b - 89
  else if 112 ≤ b ∧ b ≤ 116 then b - 90
  else if 118 ≤ b ∧ b ≤ 122 then b - 91
  else 255

/-- Byte assembly of oklog/ulid `parse`: 26 base32 characters are packed into
16 bytes.  The Go byte arithmetic truncates each shift to 8 bits, hence the
`% 256` after every left shift. -/
def ulidDecode (v : List Nat) : List Nat :=
  let d : Nat → Nat := fun i => ulidDecByte (v.getD i 0)
  [ ((d 0 <<< 5) % 256) ||| d 1,
    ((d 2 <<< 3) % 256) ||| (d 3 >>> 2),
    ((d 3 <<< 6) % 256) ||| ((d 4 <<< 1) % 256) ||| (d 5 >>> 4),
    ((d 5 <<< 4) % 256) ||| (d 6 >>> 1),
    ((d 6 <<< 7) % 256) ||| ((d 7 <<< 2) % 256) ||| (d 8 >>> 3),
    ((d 8 <<< 5) % 256) ||| d 9,
    ((d 10 <<< 3) % 256) ||| (d 11 >>> 2),
    ((d 11 <<< 6) % 256) ||| ((d 12 <<< 1) % 256) ||| (d 13 >>> 4),
    ((d 13 <<< 4) % 256) ||| (d 14 >>> 1),
    ((d 14 <<< 7) % 256) ||| ((d 15 <<< 2) % 256) ||| (d 16 >>> 3),
    ((d 16 <<< 5) % 256) ||| d 17,
    ((d 18 <<< 3) % 256) ||| (d 19 >>> 2),
    ((d 19 <<< 6) % 256) ||| ((d 20 <<< 1) % 256) ||| (d 21 >>> 4),
    ((d 21 <<< 4) % 256) ||| (d 22 >>> 1),
    ((d 22 <<< 7) % 256) ||| ((d 23 <<< 2) % 256) ||| (d 24 >>> 3),
    ((d 24 <<< 5) % 256) ||| d 25 ]

/-- Non-strict `ulid.Parse` of the oklog/ulid dependency: the input must be
exactly 26 bytes (`ErrDataSize` otherwise) and its first byte must not exceed
the character `7` (`ErrOverflow` otherwise); character validity is NOT checked
in non-strict mode, invalid characters simply decode through the 0xFF table
entry. -/
def ulidParse (s : String) : Except GoError (List Nat) :=
  let v := s.data.map Char.toNat
  if v.length ≠ 26 then .error .dataSize
  else if v.headD 0 > 55 then .error .overflow
  else .ok (ulidDecode v)

/-- Embeds `ULID.UnmarshalBinary` of the oklog/ulid dependency: succeeds
exactly when the input is 16 bytes long and then copies the bytes. -/
def ulidUnmarshalBinary (data : List Nat) : Except GoError (List Nat) :=
  if data.length = 16 then .ok data else .error .dataSize

/-- Lookup in an association list modelling a Go map read. -/
def alookup {β : Type} : List (List Nat × β) → List Nat → Option β
  | [], _ => none
  | p :: rest, k => if p.1 = k then some p.2 else alookup rest k

/-- Lookup in a Go map keyed by strings (the handshake topic map). -/
def slookup {β : Type} : List (String × β) → String → Option β
  | [], _ => none
  | p :: rest, k => if p.1 = k then some p.2 else slookup rest k

/-- Embeds `Publisher.resolveTopic` (publisher.go lines 328-342): first try to
parse the topic string as a ULID; on success return the parsed id without
consulting the topic map; otherwise look the name up in the handshake topic
map; if both fail return `ErrResolveTopic`. -/
def resolveTopic (topics : List (String × List Nat)) (topic : String) :
    Except GoError (List Nat) :=
  match ulidParse topic with
  | .ok topicID => .ok topicID
  | .error _ =>
    match slookup topics topic with
    | some topicID => .ok topicID
    | none => .error .resolveTopic

/-- Reply message on the publish stream (`api.PublisherReply`): the embedded
message is an ack, a nack, a stream-ready handshake reply, a close-stream
notice, or anything else (including a nil embed), modelled by `other`. -/
inductive PublisherReply where
  | ack (id : List Nat) (committed : Nat)
  | nack (id : List Nat) (code : Nat) (msg : String)
  | ready (serverId : String) (topics : List (String × List Nat))
  | closeStream
  | other
deriving DecidableEq

/-- Embeds `PublisherReply.GetReady`: returns the ready payload exactly when
the embedded message is a `StreamReady`. -/
def getReadyPub (rep : PublisherReply) : Option (String × List (String × List Nat)) :=
  match rep with
  | .ready serverId topics => some (serverId, topics)
  | _ => none

/-- Wire envelope written to the publish stream (`api.EventWrapper`): topic
id bytes, local correlation id bytes, and the marshalled event payload. -/
structure EventWrapper where
  topicId : List Nat
  localId : List Nat
  eventData : List Nat
deriving DecidableEq

/-- State of one capacity-one reply channel: its buffered messages and
whether it has been closed. -/
structure Chan where
  buf : List PublisherReply
  closed : Bool
deriving DecidableEq

/-- A freshly made reply channel (`make(chan *api.PublisherReply, 1)`):
empty and open. -/
def Chan.fresh : Chan := { buf := [], closed := false }

/-- Behaviour of the currently open gRPC stream as seen by `Send`: `sendErr`
is the error the next `Send` returns, or `none` when sends succeed. -/
structure StreamConn where
  sendErr : Option GoError
deriving DecidableEq

/-- State of a `Publisher` stream manager (publisher.go lines 24-38), as
mutated under its three locks: the current stream handle (`smu`), the log of
event envelopes successfully written to the stream, the key set of the
pending map and the reply channels created for those keys (`pmu`), the
handshake topic map, the fatal error slot (`fmu`) and the server id.  The
pending map of the Go code maps each correlation id to its reply channel;
here `pending` is the key set of that map and `chans` stores each created
channel under the id that created it, so that a channel remains observable
after its key is deleted from the map (in Go the caller still holds it). -/
structure PubState where
  stream : Option StreamConn
  sent : List EventWrapper
  pending : List (List Nat)
  chans : List (List Nat × Chan)
  topics : List (String × List Nat)
  fatal : Option GoError
  serverID : String
deriving DecidableEq

/-- Go map assignment on an association list: replace the binding of the key
if present, otherwise append it. -/
def mapInsert {β : Type} : List (List Nat × β) → List Nat → β → List (List Nat × β)
  | [], k, v => [(k, v)]
  | p :: rest, k, v => if p.1 = k then (k, v) :: rest else p :: mapInsert rest k v

/-- Insert a key into the key set of a Go map. -/
def keyInsert (l : List (List Nat)) (k : List Nat) : List (List Nat) :=
  if k ∈ l then l else l ++ [k]

/-- Delete a key from the key set of a Go map. -/
def keyErase : List (List Nat) → List Nat → List (List Nat)
  | [], _ => []
  | x :: rest, k => if x = k then keyErase rest k else x :: keyErase rest k

/-- Deliver a reply on the channel registered under a key and close the
channel (`pending <- in; close(pending)` in the receiver): the first binding
of the key gets the message appended to its buffer and its closed flag set. -/
def chanWriteClose : List (List Nat × Chan) → List Nat → PublisherReply →
    List (List Nat × Chan)
  | [], _, _ => []
  | p :: rest, k, m =>
    if p.1 = k then (p.1, { buf := p.2.buf ++ [m], closed := true }) :: rest
    else p :: chanWriteClose rest k m

/-- Embeds `Publisher.Publish` (publisher.go lines 77-118).  The locally
generated `ulid.Make()` correlation id is passed in as `localID` (the Go call
draws it from the entropy source); the marshalled event payload is `event`.
In source order: resolve the topic (returning the resolution error without
touching any state), build the envelope, panic if no stream is open, send the
envelope on the stream (returning the send error without touching any state),
and only then create the capacity-one reply channel and register it in the
pending map.  The returned value is the correlation id naming the registered
reply channel that the Go code hands back to the caller. -/
def Publish (st : PubState) (localID : List Nat) (topic : String)
    (event : List Nat) : GoResult (List Nat) × PubState :=
  match resolveTopic st.topics topic with
  | .error e => (.err e, st)
  | .ok topicID =>
    let env : EventWrapper :=
      { topicId := topicID, localId := localID, eventData := event }
    match st.stream with
    | none => (.crash, st)
    | some conn =>
      match conn.sendErr with
      | some e => (.err e, st)
      | none =>
        (.ok localID,
          { st with
            sent := st.sent ++ [env],
            pending := keyInsert st.pending localID,
            chans := mapInsert st.chans localID Chan.fresh })

/-- Embeds the ack/nack handling of `Publisher.receiver` (publisher.go lines
277-315) for one received message: for an ack or a nack, unmarshal the
correlation id (the Go code panics if that fails), and if the id is a key of
the pending map deliver the whole reply on its channel, close the channel and
delete the key; replies whose id is not pending, close-stream notices and
unhandled message types leave the state unchanged. -/
def receiverHandle (st : PubState) (msg : PublisherReply) :
    GoResult Unit × PubState :=
  match msg with
  | .ack id _ =>
    match ulidUnmarshalBinary id with
    | .error _ => (.crash, st)
    | .ok localID =>
      if localID ∈ st.pending then
        (.ok (),
          { st with
            chans := chanWriteClose st.chans localID msg,
            pending := keyErase st.pending localID })
      else (.ok (), st)
  | .nack id _ _ =>
    match ulidUnmarshalBinary id with
    | .error _ => (.crash, st)
    | .ok localID =>
      if localID ∈ st.pending then
        (.ok (),
          { st with
            chans := chanWriteClose st.chans localID msg,
            pending := keyErase st.pending localID })
      else (.ok (), st)
  | _ => (.ok (), st)

/-- Embeds `Publisher.Close` (publisher.go lines 121-136): send the stop
signal to the lifecycle loop, call `CloseSend` on the stream (a nil stream
would panic; a `CloseSend` error is returned), and wait for the goroutines to
stop.  None of these steps reads or writes the pending map or any reply
channel, so the publisher state is returned unchanged. -/
def pubClose (st : PubState) (closeSendErr : Option GoError) :
    GoResult Unit × PubState :=
  match st.stream with
  | none => (.crash, st)
  | some _ =>
    match closeSendErr with
    | some e => (.err e, st)
    | none => (.ok (), st)

/-- Embeds `Publisher.setFatal` (publisher.go lines 320-324). -/
def setFatal (st : PubState) (e : GoError) : PubState :=
  { st with fatal := some e }

/-- Embeds `Publisher.Err` (publisher.go lines 140-144). -/
def publisherErr (st : PubState) : Option GoError := st.fatal

/-- State of a fresh `Publisher` after `NewPublisher` succeeded: open stream,
nothing sent, empty pending map, no channels, no fatal error (the topic map
and server id are filled in by the handshake). -/
def initPubState : PubState :=
  { stream := some { sendErr := none }, sent := [], pending := [],
    chans := [], topics := [], fatal := none, serverID := "" }

deriving instance DecidableEq for Except

/-- A Go context as far as the stream managers build them: either
`context.Background()` or `context.WithTimeout(context.Background(), d)`
with the duration in nanoseconds. -/
inductive Ctx where
  | background
  | withTimeout (d : Nat)
deriving DecidableEq

/-- Whether a context carries a deadline. -/
def Ctx.bounded : Ctx → Bool
  | .background => false
  | .withTimeout _ => true

/-- The `ReconnectTimeout` constant of stream.go: 5 minutes, in
nanoseconds as Go durations are. -/
def reconnectTimeout : Nat := 300000000000

/-- Context passed by `Publisher.openStream` to `client.PublishStream`
(publisher.go line 199): `context.Background()`, with no timeout. -/
def publisherOpenStreamCtx : Ctx := .background

/-- Context used by `Publisher.reconnect` (publisher.go line 237):
`context.WithTimeout(context.Background(), ReconnectTimeout)`. -/
def publisherReconnectCtx : Ctx := .withTimeout reconnectTimeout

/-- Context built by `Subscriber.openStream` (subscriber source line 200)
and passed to `client.SubscribeStream`:
`context.WithTimeout(context.Background(), ReconnectTimeout)`. -/
def subscriberOpenStreamCtx : Ctx := .withTimeout reconnectTimeout

/-- Context used by `Subscriber.reconnect` (subscriber source line 240). -/
def subscriberReconnectCtx : Ctx := .withTimeout reconnectTimeout

/-- Environment behaviour of one `client.PublishStream` call that succeeded:
the result of sending the open-stream message, the result of the first
`Recv`, and the behaviour of the established stream afterwards. -/
structure PubHandshake where
  sendResult : Option GoError
  recvResult : Except GoError PublisherReply
  conn : StreamConn
deriving DecidableEq

/-- Builds the topic map from the raw handshake payload (publisher.go lines
224-230 and the identical subscriber loop): every entry whose value
unmarshals as a ULID (16 bytes) is inserted; entries that fail to unmarshal
are silently skipped. -/
def buildTopicMap (raw : List (String × List Nat)) : List (String × List Nat) :=
  raw.foldl
    (fun acc p =>
      match ulidUnmarshalBinary p.2 with
      | .ok topicID => acc ++ [(p.1, topicID)]
      | .error _ => acc)
    []

/-- Embeds `Publisher.openStream` (publisher.go lines 196-233): call
`client.PublishStream` with a background context (no timeout), send the
open-stream message, perform a first `Recv`; a connect, send or recv error is
returned as is; if the reply carries no `StreamReady` payload the method
returns `ErrStreamUninitialized`; on success the server id and the topic map
are stored.  The first component is the returned error, the second the
updated publisher state. -/
def publisherOpenStream (st : PubState)
    (connect : Ctx → Except GoError PubHandshake) :
    Option GoError × PubState :=
  match connect publisherOpenStreamCtx with
  | .error e => (some e, { st with stream := none })
  | .ok hs =>
    let st1 := { st with stream := some hs.conn }
    match hs.sendResult with
    | some e => (some e, st1)
    | none =>
      match hs.recvResult with
      | .error e => (some e, st1)
      | .ok rep =>
        match getReadyPub rep with
        | none => (some .streamUninitialized, st1)
        | some (serverId, topics) =>
          (none, { st1 with serverID := serverId,
                            topics := buildTopicMap topics })

/-- Embeds `Publisher.reconnect` (publisher.go lines 236-244): wait on the
connection observer under the `ReconnectTimeout`-bounded context; if the
observer reports failure return `ErrReconnect`. -/
def publisherReconnect (waitForReconnect : Ctx → Bool) : Option GoError :=
  if waitForReconnect publisherReconnectCtx then none else some .reconnect

/-- Signals consumed by the lifecycle loop select: a down signal from the
receiver or the stop signal from `Close`. -/
inductive LoopSig where
  | down
  | stop
deriving DecidableEq

/-- Observable actions of the lifecycle loop, in execution order: a
reconnect wait, a handshake attempt, restarting the receiver goroutine,
setting the fatal error, and returning because of the stop signal. -/
inductive LoopAct where
  | reconnectAttempt
  | openAttempt
  | restartReceiver
  | setFatalAct (e : GoError)
  | stopped
deriving DecidableEq

/-- Embeds the select loop of `Publisher.start` (publisher.go lines 166-188)
and the identical loop of `Subscriber.start`: signals arrive in the order
given by `sigs`; for the n-th down signal the environment determines the
outcome of `reconnect()` and of `openStream()` through `env` (a `none`
component is success).  The result is the final fatal slot together with the
trace of actions the loop performed.  On a reconnect or handshake failure the
loop stores the fatal error and returns; on the stop signal it returns; an
empty signal list leaves the loop blocked in the select with no further
actions. -/
def startLoop (fatal : Option GoError) :
    List LoopSig → List (Option GoError × Option GoError) →
    Option GoError × List LoopAct
  | [], _ => (fatal, [])
  | .stop :: _, _ => (fatal, [.stopped])
  | .down :: rest, env =>
    match (env.headD (none, none)).1 with
    | some e => (some e, [.reconnectAttempt, .setFatalAct e])
    | none =>
      match (env.headD (none, none)).2 with
      | some e => (some e, [.reconnectAttempt, .openAttempt, .setFatalAct e])
      | none =>
        let cont := startLoop fatal rest env.tail
        (cont.1, .reconnectAttempt :: .openAttempt :: .restartReceiver :: cont.2)

/-- Holds when no reconnect attempt occurs after a fatal error has been set
in a lifecycle-loop action trace. -/
def noReconnectAfterFatal : List LoopAct → Bool
  | [] => true
  | .setFatalAct _ :: rest => rest.all (fun a => a ≠ .reconnectAttempt)
  | _ :: rest => noReconnectAfterFatal rest

/-- Holds when setting the fatal error is terminal in a lifecycle-loop
action trace: after a `setFatalAct` the loop performs nothing further. -/
def fatalIsTerminal : List LoopAct → Bool
  | [] => true
  | .setFatalAct _ :: rest => rest.isEmpty
  | _ :: rest => fatalIsTerminal rest

/-- Reply message on the subscribe stream (`api.SubscribeReply`). -/
inductive SubscribeReply where
  | event (e : EventWrapper)
  | ready (serverId : String) (topics : List (String × List Nat))
  | closeStream
  | other
deriving DecidableEq

/-- Outbound protocol message from an event consumer: the ack and nack of
the subscribe stream (`api.Ack` / `api.Nack`). -/
inductive AckMsg where
  | ackMsg (id : List Nat)
  | nackMsg (id : List Nat) (code : Nat)
deriving DecidableEq

/-- State of a `Subscriber` stream manager (the Subscriber source lines
23-37): the current stream handle, the log of ack/nack messages successfully
written to the stream, the handshake topic map, the fatal error slot and the
server id. -/
structure SubState where
  stream : Option StreamConn
  sentAcks : List AckMsg
  topics : List (String × List Nat)
  fatal : Option GoError
  serverID : String
deriving DecidableEq

/-- Embeds `Subscriber.Ack` (subscriber source lines 84-98): build the ack
request, panic if no stream is open, and synchronously send it on the
stream, returning the send error if any.  The fatal slot is not consulted. -/
def subscriberAck (st : SubState) (id : List Nat) : GoResult Unit × SubState :=
  match st.stream with
  | none => (.crash, st)
  | some conn =>
    match conn.sendErr with
    | some e => (.err e, st)
    | none => (.ok (), { st with sentAcks := st.sentAcks ++ [.ackMsg id] })

/-- Embeds `Subscriber.Nack` (subscriber source lines 102-116), the mirror
of `subscriberAck` for nacks. -/
def subscriberNack (st : SubState) (id : List Nat) (code : Nat) :
    GoResult Unit × SubState :=
  match st.stream with
  | none => (.crash, st)
  | some conn =>
    match conn.sendErr with
    | some e => (.err e, st)
    | none => (.ok (), { st with sentAcks := st.sentAcks ++ [.nackMsg id code] })

/-- Embeds `Subscriber.setFatal`. -/
def subSetFatal (st : SubState) (e : GoError) : SubState :=
  { st with fatal := some e }

/-- Embeds `Subscriber.Err`. -/
def subscriberErr (st : SubState) : Option GoError := st.fatal

/-- Environment behaviour of one `client.SubscribeStream` call that
succeeded, mirroring `PubHandshake` for the subscribe direction. -/
structure SubHandshake where
  sendResult : Option GoError
  recvResult : Except GoError SubscribeReply
  conn : StreamConn
deriving DecidableEq

/-- Embeds `SubscribeReply.GetReady`. -/
def getReadySub (rep : SubscribeReply) : Option (String × List (String × List Nat)) :=
  match rep with
  | .ready serverId topics => some (serverId, topics)
  | _ => none

/-- Embeds `Subscriber.openStream` (subscriber source lines 199-236): call
`client.SubscribeStream` under a `ReconnectTimeout`-bounded context, send the
subscription message, perform a first `Recv`; a connect, send or recv error
is returned as is; if the reply carries no `StreamReady` payload the method
returns `ErrStreamUninitialized`; on success the server id and the topic map
are stored. -/
def subscriberOpenStream (st : SubState)
    (connect : Ctx → Except GoError SubHandshake) :
    Option GoError × SubState :=
  match connect subscriberOpenStreamCtx with
  | .error e => (some e, { st with stream := none })
  | .ok hs =>
    let st1 := { st with stream := some hs.conn }
    match hs.sendResult with
    | some e => (some e, st1)
    | none =>
      match hs.recvResult with
      | .error e => (some e, st1)
      | .ok rep =>
        match getReadySub rep with
        | none => (some .streamUninitialized, st1)
        | some (serverId, topics) =>
          (none, { st1 with serverID := serverId,
                            topics := buildTopicMap topics })

/-- Embeds `Subscriber.reconnect` (subscriber source lines 239-247). -/
def subscriberReconnect (waitForReconnect : Ctx → Bool) : Option GoError :=
  if waitForReconnect subscriberReconnectCtx then none else some .reconnect

/-- Lifecycle states of an `Event` (event.go lines 62-70). -/
inductive EventState where
  | initialized
  | published
  | subscription
  | acked
  | nacked
deriving DecidableEq

/-- The user-facing slice of an `Event` that `Ack` and `Nack` read and
write (event.go lines 23-50): its lifecycle state, its error slot, and the
server-assigned id recorded in the wrapper info. -/
structure EventModel where
  state : EventState
  err : Option GoError
  infoId : List Nat
deriving DecidableEq

/-- Embeds `Event.Ack` (event.go lines 212-232): on an already-acked event
return true with the stored error; on a nacked event return false with the
stored error; on an initialized or merely published event return false with
`ErrCannotAck`; none of these sends anything.  Only for an event in the
subscription state is an ack message sent through the acknowledger, whose
result is `subResult`; on a send error the error is stored and returned,
otherwise the event becomes acked.  The last component lists the messages
handed to the acknowledger during the call. -/
def eventAck (e : EventModel) (subResult : Option GoError) :
    (Bool × Option GoError) × EventModel × List AckMsg :=
  match e.state with
  | .acked => ((true, e.err), e, [])
  | .nacked => ((false, e.err), e, [])
  | .initialized => ((false, some .cannotAck), e, [])
  | .published => ((false, some .cannotAck), e, [])
  | .subscription =>
    match subResult with
    | some err => ((false, some err), { e with err := some err }, [.ackMsg e.infoId])
    | none => ((true, none), { e with state := .acked }, [.ackMsg e.infoId])

/-- Embeds `Event.Nack` (event.go lines 242-262), the mirror of `eventAck`:
true with the stored error when already nacked, false with the stored error
when acked, false with `ErrCannotAck` when initialized or published, and a
nack message through the acknowledger only in the subscription state. -/
def eventNack (e : EventModel) (code : Nat) (subResult : Option GoError) :
    (Bool × Option GoError) × EventModel × List AckMsg :=
  match e.state with
  | .nacked => ((true, e.err), e, [])
  | .acked => ((false, e.err), e, [])
  | .initialized => ((false, some .cannotAck), e, [])
  | .published => ((false, some .cannotAck), e, [])
  | .subscription =>
    match subResult with
    | some err => ((false, some err), { e with err := some err }, [.nackMsg e.infoId code])
    | none => ((true, none), { e with state := .nacked }, [.nackMsg e.infoId code])

theorem alookup_mapInsert_self {β : Type} (cs : List (List Nat × β))
    (k : List Nat) (v : β) : alookup (mapInsert cs k v) k = some v := by
  induction cs with
  | nil => simp [mapInsert, alookup]
  | cons p rest ih =>
    by_cases h : p.1 = k
    · simp [mapInsert, h, alookup]
    · simp [mapInsert, h, alookup, ih]

theorem alookup_mapInsert_ne {β : Type} (cs : List (List Nat × β))
    (k j : List Nat) (v : β) (h : j ≠ k) :
    alookup (mapInsert cs k v) j = alookup cs j := by
  have hkj : ¬k = j := fun hx => h hx.symm
  induction cs with
  | nil => simp [mapInsert, alookup, hkj]
  | cons p rest ih =>
    by_cases hp : p.1 = k
    · subst hp
      simp [mapInsert, alookup, hkj]
    · by_cases hj : p.1 = j
      · simp [mapInsert, hp, alookup, hj, h]
      · simp [mapInsert, hp, alookup, hj, ih]

theorem alookup_chanWriteClose_self (cs : List (List Nat × Chan))
    (k : List Nat) (m : PublisherReply) (c : Chan)
    (h : alookup cs k = some c) :
    alookup (chanWriteClose cs k m) k
      = some { buf := c.buf ++ [m], closed := true } := by
  induction cs with
  | nil => simp [alookup] at h
  | cons p rest ih =>
    by_cases hp : p.1 = k
    · simp [alookup, hp] at h
      simp [chanWriteClose, hp, alookup, h]
    · simp [alookup, hp] at h
      simp [chanWriteClose, hp, alookup, ih h]

theorem alookup_chanWriteClose_ne (cs : List (List Nat × Chan))
    (k j : List Nat) (m : PublisherReply) (h : j ≠ k) :
    alookup (chanWriteClose cs k m) j = alookup cs j := by
  have hkj : ¬k = j := fun hx => h hx.symm
  induction cs with
  | nil => simp [chanWriteClose]
  | cons p rest ih =>
    by_cases hp : p.1 = k
    · subst hp
      simp [chanWriteClose, alookup, hkj]
    · by_cases hj : p.1 = j
      · simp [chanWriteClose, hp, alookup, hj, h]
      · simp [chanWriteClose, hp, alookup, hj, ih]

theorem alookup_chanWriteClose_none (cs : List (List Nat × Chan))
    (k j : List Nat) (m : PublisherReply) (h : alookup cs j = none) :
    alookup (chanWriteClose cs k m) j = none := by
  by_cases hjk : j = k
  · subst hjk
    have : chanWriteClose cs j m = cs := by
      induction cs with
      | nil => rfl
      | cons p rest ih =>
        by_cases hp : p.1 = j
        · simp [alookup, hp] at h
        · simp only [alookup, if_neg hp] at h
          simp [chanWriteClose, hp, ih h]
    rw [this, h]
  · rw [alookup_chanWriteClose_ne cs k j m hjk, h]

theorem mem_keyErase (l : List (List Nat)) (k j : List Nat) :
    j ∈ keyErase l k ↔ j ∈ l ∧ j ≠ k := by
  induction l with
  | nil => simp [keyErase]
  | cons x rest ih =>
    by_cases hx : x = k
    · rw [show keyErase (x :: rest) k = keyErase rest k from by simp [keyErase, hx]]
      rw [ih]
      simp only [List.mem_cons]
      constructor
      · rintro ⟨hm, hne⟩
        exact ⟨Or.inr hm, hne⟩
      · rintro ⟨hm | hm, hne⟩
        · exact absurd (hm.trans hx) hne
        · exact ⟨hm, hne⟩
    · rw [show keyErase (x :: rest) k = x :: keyErase rest k from by simp [keyErase, hx]]
      simp only [List.mem_cons, ih]
      constructor
      · rintro (hm | ⟨hm, hne⟩)
        · exact ⟨Or.inl hm, fun hc => hx (hm.symm.trans hc)⟩
        · exact ⟨Or.inr hm, hne⟩
      · rintro ⟨hm | hm, hne⟩
        · exact Or.inl hm
        · exact Or.inr ⟨hm, hne⟩

theorem keyErase_nodup (l : List (List Nat)) (k : List Nat)
    (h : l.Nodup) : (keyErase l k).Nodup := by
  induction l with
  | nil => simp [keyErase]
  | cons x rest ih =>
    rcases List.nodup_cons.mp h with ⟨hx, hrest⟩
    by_cases hxk : x = k
    · simpa [keyErase, hxk] using ih hrest
    · simp only [keyErase, if_neg hxk]
      refine List.nodup_cons.mpr ⟨?_, ih hrest⟩
      intro hmem
      exact hx ((mem_keyErase rest k x).mp hmem).1

theorem keyInsert_not_mem (l : List (List Nat)) (k : List Nat)
    (h : k ∉ l) : keyInsert l k = l ++ [k] := by
  simp [keyInsert, h]

theorem mem_keyInsert_self (l : List (List Nat)) (k : List Nat) :
    k ∈ keyInsert l k := by
  by_cases h : k ∈ l <;> simp [keyInsert, h]

theorem nodup_append_single (l : List (List Nat)) (a : List Nat)
    (h : l.Nodup) (ha : a ∉ l) : (l ++ [a]).Nodup := by
  refine List.Nodup.append h (List.nodup_singleton a) ?_
  intro x hx hx2
  rw [List.mem_singleton] at hx2
  exact ha (hx2 ▸ hx)

/-- C4: for every topic string passed to `Publish`, a string that parses as a
ULID resolves directly to the parsed id without consulting the handshake topic
map (the result is the same for every topic map); otherwise a string that is a
key of the handshake topic map resolves to the mapped id; otherwise `Publish`
fails with the cannot-resolve-topic error and nothing is sent on the stream
(the publisher state, including the log of sent envelopes and the pending
map, is unchanged). -/
theorem C4_topic_resolution (topics : List (String × List Nat)) (topic : String) :
    (∀ topicID, ulidParse topic = .ok topicID →
      resolveTopic topics topic = .ok topicID) ∧
    (∀ e topicID, ulidParse topic = .error e →
      slookup topics topic = some topicID →
      resolveTopic topics topic = .ok topicID) ∧
    (∀ e, ulidParse topic = .error e → slookup topics topic = none →
      ∀ st localID event, st.topics = topics →
        Publish st localID topic event = (.err .resolveTopic, st)) := by
  refine ⟨?_, ?_, ?_⟩
  · intro topicID h
    unfold resolveTopic
    rw [h]
  · intro e topicID he hl
    unfold resolveTopic
    rw [he, hl]
  · intro e he hl st localID event hst
    unfold Publish resolveTopic
    rw [hst, he, hl]

/-- Witness for C4 at the examples given in the spec: with handshake topic map
mapping `orders` to an id X, a syntactically valid ULID string resolves
directly to its parsed bytes, `orders` resolves to X through the map, and an
unknown name makes `Publish` fail with the resolution error leaving the
publisher state untouched. -/
theorem C4_topic_resolution_witness :
    resolveTopic [("orders", List.replicate 16 3)] "01H1PA4FA9G2Y79Z5FC36CWYYJ"
      = .ok [1, 136, 108, 162, 61, 73, 128, 188, 116, 252, 175, 96, 204, 206, 123, 210] ∧
    resolveTopic [("orders", List.replicate 16 3)] "orders"
      = .ok (List.replicate 16 3) ∧
    Publish { initPubState with topics := [("orders", List.replicate 16 3)] }
        (List.replicate 16 1) "unknown-name" [7]
      = (.err .resolveTopic,
         { initPubState with topics := [("orders", List.replicate 16 3)] }) := by
  refine ⟨(C4_topic_resolution _ _).1 _ (by decide),
          (C4_topic_resolution _ _).2.1 .dataSize _ (by decide) (by decide),
          (C4_topic_resolution _ _).2.2 .dataSize (by decide) (by decide) _ _ _ rfl⟩

/-- C5: calling `Ack` or `Nack` on an event whose lifecycle state is still
initialized or published returns false together with the cannot-ack error,
leaves the event unchanged, and hands no outbound ack or nack message to the
acknowledger. -/
theorem C5_ack_requires_subscription (e : EventModel) (subResult : Option GoError)
    (code : Nat) (h : e.state = .initialized ∨ e.state = .published) :
    eventAck e subResult = ((false, some .cannotAck), e, []) ∧
    eventNack e code subResult = ((false, some .cannotAck), e, []) := by
  unfold eventAck eventNack
  rcases h with h | h <;> rw [h] <;> exact ⟨rfl, rfl⟩

/-- Witness for C5 on a freshly initialized event and on a published event. -/
theorem C5_ack_requires_subscription_witness :
    eventAck { state := .initialized, err := none, infoId := [] } none
      = ((false, some .cannotAck), { state := .initialized, err := none, infoId := [] }, []) ∧
    eventNack { state := .published, err := none, infoId := [1] } 2 none
      = ((false, some .cannotAck), { state := .published, err := none, infoId := [1] }, []) := by
  exact ⟨(C5_ack_requires_subscription _ none 0 (Or.inl rfl)).1,
         (C5_ack_requires_subscription _ none 2 (Or.inr rfl)).2⟩

/-- C6: on an event in a terminal state, repeating the same terminal call
(`Ack` after acked, `Nack` after nacked) returns true with the stored
outcome/error, while the opposite call (`Nack` after acked, `Ack` after
nacked) returns false with the stored error; in all four cases the event is
unchanged and nothing is handed to the acknowledger. -/
theorem C6_terminal_idempotence (e : EventModel) (subResult : Option GoError)
    (code : Nat) :
    (e.state = .acked →
      eventAck e subResult = ((true, e.err), e, []) ∧
      eventNack e code subResult = ((false, e.err), e, [])) ∧
    (e.state = .nacked →
      eventNack e code subResult = ((true, e.err), e, []) ∧
      eventAck e subResult = ((false, e.err), e, [])) := by
  constructor <;> intro h <;> unfold eventAck eventNack <;> rw [h] <;> exact ⟨rfl, rfl⟩

/-- Witness for C6 on a concrete acked event and a concrete nacked event. -/
theorem C6_terminal_idempotence_witness :
    (eventAck { state := .acked, err := none, infoId := [5] } none
      = ((true, none), { state := .acked, err := none, infoId := [5] }, []) ∧
     eventNack { state := .acked, err := none, infoId := [5] } 1 none
      = ((false, none), { state := .acked, err := none, infoId := [5] }, [])) ∧
    (eventNack { state := .nacked, err := some .eof, infoId := [5] } 1 none
      = ((true, some .eof), { state := .nacked, err := some .eof, infoId := [5] }, []) ∧
     eventAck { state := .nacked, err := some .eof, infoId := [5] } none
      = ((false, some .eof), { state := .nacked, err := some .eof, infoId := [5] }, [])) := by
  exact ⟨(C6_terminal_idempotence _ none 1).1 rfl, (C6_terminal_idempotence _ none 1).2 rfl⟩

/-- C10: when the stream `Send` inside `Publish` fails, `Publish` returns
that send error and the publisher state is completely unchanged: no
correlation id is registered in the pending map and no reply channel is
created. -/
theorem C10_publish_send_failure_atomic (st : PubState) (localID : List Nat)
    (topic : String) (event : List Nat) (conn : StreamConn) (e : GoError)
    (topicID : List Nat)
    (hres : resolveTopic st.topics topic = .ok topicID)
    (hstream : st.stream = some conn)
    (hsend : conn.sendErr = some e) :
    Publish st localID topic event = (.err e, st) := by
  unfold Publish
  rw [hres, hstream]
  simp [hsend]

/-- Witness for C10: a publisher whose stream send fails with a transport
error returns exactly that error from `Publish` and keeps its state. -/
theorem C10_publish_send_failure_atomic_witness :
    Publish { initPubState with stream := some { sendErr := some (.transport 3) } }
        (List.replicate 16 1) "01H1PA4FA9G2Y79Z5FC36CWYYJ" [7]
      = (.err (.transport 3),
         { initPubState with stream := some { sendErr := some (.transport 3) } }) := by
  exact C10_publish_send_failure_atomic _ _ _ _ { sendErr := some (.transport 3) }
    (.transport 3)
    [1, 136, 108, 162, 61, 73, 128, 188, 116, 252, 175, 96, 204, 206, 123, 210]
    (by decide) rfl rfl

theorem startLoop_no_reconnect_after_fatal (sigs : List LoopSig) :
    ∀ (f : Option GoError) (env : List (Option GoError × Option GoError)),
      noReconnectAfterFatal (startLoop f sigs env).2 = true := by
  induction sigs with
  | nil => intro f env; rfl
  | cons s rest ih =>
    intro f env
    cases s with
    | stop => rfl
    | down =>
      cases env with
      | nil => exact ih f []
      | cons p tl =>
        obtain ⟨a, b⟩ := p
        cases a with
        | some e => rfl
        | none =>
          cases b with
          | some e => rfl
          | none => exact ih f tl

theorem startLoop_fatal_terminal (sigs : List LoopSig) :
    ∀ (f : Option GoError) (env : List (Option GoError × Option GoError)),
      fatalIsTerminal (startLoop f sigs env).2 = true := by
  induction sigs with
  | nil => intro f env; rfl
  | cons s rest ih =>
    intro f env
    cases s with
    | stop => rfl
    | down =>
      cases env with
      | nil => exact ih f []
      | cons p tl =>
        obtain ⟨a, b⟩ := p
        cases a with
        | some e => rfl
        | none =>
          cases b with
          | some e => rfl
          | none => exact ih f tl

/-- A publisher that has fatally errored (the lifecycle loop stored
`ErrReconnect` and exited) while its last stream handle still accepts sends
and the handshake topic map knows the topic `orders`. -/
def fatalDemoState : PubState :=
  setFatal { initPubState with topics := [("orders", List.replicate 16 3)] } .reconnect

/-- Counterexample to C1: on a publisher whose fatal slot holds
`ErrReconnect`, a subsequent `Publish` call does not fail with the stored
fatal error — the code never consults the fatal slot on the publish path, so
the call goes through the topic resolution and the stream send and here even
succeeds.  The claim that every subsequent `Publish` returns the stored
fatal error is therefore false. -/
theorem C1_counterexample :
    publisherErr fatalDemoState = some .reconnect ∧
    (Publish fatalDemoState (List.replicate 16 1) "orders" [7]).1
      = .ok (List.replicate 16 1) ∧
    (Publish fatalDemoState (List.replicate 16 1) "orders" [7]).1
      ≠ .err .reconnect := by
  refine ⟨rfl, by decide, by decide⟩

/-- C1 as amended: once the fatal slot is set the lifecycle loop has
returned, so no further reconnect attempt ever occurs, and the fatal error
is observable through `Err`; but `Publish` (and the subscriber `Ack`/`Nack`)
never consult the fatal slot: their outcome and state effect are identical
whatever the fatal slot holds, so they fail only when the underlying stream
send fails, with the send error rather than the stored fatal error. -/
theorem C1_amended_fatal_behaviour :
    (∀ (f : Option GoError) (sigs : List LoopSig)
       (env : List (Option GoError × Option GoError)),
       noReconnectAfterFatal (startLoop f sigs env).2 = true) ∧
    (∀ (st : PubState) (e : GoError), publisherErr (setFatal st e) = some e) ∧
    (∀ (st : PubState) (f : Option GoError) (localID : List Nat)
       (topic : String) (event : List Nat),
       Publish { st with fatal := f } localID topic event
         = ((Publish st localID topic event).1,
            { (Publish st localID topic event).2 with fatal := f })) ∧
    (∀ (st : SubState) (f : Option GoError) (id : List Nat),
       subscriberAck { st with fatal := f } id
         = ((subscriberAck st id).1,
            { (subscriberAck st id).2 with fatal := f })) ∧
    (∀ (st : SubState) (f : Option GoError) (id : List Nat) (code : Nat),
       subscriberNack { st with fatal := f } id code
         = ((subscriberNack st id code).1,
            { (subscriberNack st id code).2 with fatal := f })) := by
  refine ⟨fun f sigs env => startLoop_no_reconnect_after_fatal sigs f env,
          fun st e => rfl, ?_, ?_, ?_⟩
  · intro st f localID topic event
    unfold Publish
    cases hr : resolveTopic st.topics topic with
    | error e => simp [hr]
    | ok topicID =>
      cases hs : st.stream with
      | none => simp [hr, hs]
      | some conn =>
        cases he : conn.sendErr with
        | some e => simp [hr, hs, he]
        | none => simp [hr, hs, he]
  · intro st f id
    unfold subscriberAck
    cases hs : st.stream with
    | none => simp [hs]
    | some conn =>
      cases he : conn.sendErr with
      | some e => simp [hs, he]
      | none => simp [hs, he]
  · intro st f id code
    unfold subscriberNack
    cases hs : st.stream with
    | none => simp [hs]
    | some conn =>
      cases he : conn.sendErr with
      | some e => simp [hs, he]
      | none => simp [hs, he]

/-- A publisher that is closed while one correlation id is still pending
with its freshly created, open, empty reply channel. -/
def closeDemoState : PubState :=
  { initPubState with
    pending := [List.replicate 16 1],
    chans := [(List.replicate 16 1, Chan.fresh)] }

/-- Counterexample to C3: `Close` returns successfully on a publisher with a
pending correlation, yet afterwards the correlation is still in the pending
map and its reply channel is still open and unfulfilled — `Close` (and the
reconnect path) never touch the pending map or the reply channels, so
pending correlations are not closed or removed, contradicting the claim that
no open unfulfilled pending correlation remains after `Close` returns. -/
theorem C3_counterexample :
    (pubClose closeDemoState none).1 = .ok () ∧
    (pubClose closeDemoState none).2.pending = [List.replicate 16 1] ∧
    alookup (pubClose closeDemoState none).2.chans (List.replicate 16 1)
      = some { buf := [], closed := false } := by
  refine ⟨rfl, rfl, by decide⟩

/-- C3 as amended: closing the publisher and the reconnect handshake both
leave the pending map and every reply channel exactly as they were: pending
correlations are abandoned only in the sense that the stopped receiver will
never fulfil them; their channels are not closed and their ids are not
removed from the map. -/
theorem C3_amended_pending_untouched (st : PubState) (r : Option GoError)
    (connect : Ctx → Except GoError PubHandshake) :
    (pubClose st r).2 = st ∧
    (publisherOpenStream st connect).2.pending = st.pending ∧
    (publisherOpenStream st connect).2.chans = st.chans ∧
    (publisherOpenStream st connect).2.sent = st.sent := by
  refine ⟨?_, ?_⟩
  · unfold pubClose
    cases st.stream with
    | none => rfl
    | some conn => cases r <;> rfl
  · unfold publisherOpenStream
    cases hc : connect publisherOpenStreamCtx with
    | error e => simp
    | ok hs =>
      cases hsend : hs.sendResult with
      | some e => simp [hsend]
      | none =>
        cases hrecv : hs.recvResult with
        | error e => simp [hsend, hrecv]
        | ok rep =>
          cases hr : getReadyPub rep with
          | none => simp [hsend, hrecv, hr]
          | some p => simp [hsend, hrecv, hr]

/-- Environment in which the first receive on a newly opened publish stream
fails with a transport error (the handshake reply never arrives). -/
def recvErrConnect : Ctx → Except GoError PubHandshake :=
  fun _ => .ok { sendResult := none, recvResult := .error (.transport 7),
                 conn := { sendErr := none } }

/-- Counterexample to C8: when the handshake reply is absent — the first
`Recv` fails with a transport error — `openStream` propagates that transport
error rather than returning `ErrStreamUninitialized`, so the claim that an
absent handshake reply yields the uninitialized-stream error is false. -/
theorem C8_counterexample :
    (publisherOpenStream initPubState recvErrConnect).1 = some (.transport 7) ∧
    some (GoError.transport 7) ≠ some GoError.streamUninitialized := by
  refine ⟨rfl, by decide⟩

/-- C8 as amended: for both managers the handshake performs a first receive
on the newly opened stream; if the reply arrives but is not a `StreamReady`
message the operation fails with `ErrStreamUninitialized`, while if the
reply is absent (the receive itself fails) the operation fails with the
receive error itself. -/
theorem C8_amended_handshake_ready (pst : PubState) (sst : SubState)
    (pconnect : Ctx → Except GoError PubHandshake)
    (sconnect : Ctx → Except GoError SubHandshake) :
    (∀ hs rep, pconnect publisherOpenStreamCtx = .ok hs →
      hs.sendResult = none → hs.recvResult = .ok rep → getReadyPub rep = none →
      (publisherOpenStream pst pconnect).1 = some .streamUninitialized) ∧
    (∀ hs e, pconnect publisherOpenStreamCtx = .ok hs →
      hs.sendResult = none → hs.recvResult = .error e →
      (publisherOpenStream pst pconnect).1 = some e) ∧
    (∀ hs rep, sconnect subscriberOpenStreamCtx = .ok hs →
      hs.sendResult = none → hs.recvResult = .ok rep → getReadySub rep = none →
      (subscriberOpenStream sst sconnect).1 = some .streamUninitialized) ∧
    (∀ hs e, sconnect subscriberOpenStreamCtx = .ok hs →
      hs.sendResult = none → hs.recvResult = .error e →
      (subscriberOpenStream sst sconnect).1 = some e) := by
  refine ⟨?_, ?_, ?_, ?_⟩
  · intro hs rep hc hsend hrecv hready
    unfold publisherOpenStream
    rw [hc]
    simp [hsend, hrecv, hready]
  · intro hs e hc hsend hrecv
    unfold publisherOpenStream
    rw [hc]
    simp [hsend, hrecv]
  · intro hs rep hc hsend hrecv hready
    unfold subscriberOpenStream
    rw [hc]
    simp [hsend, hrecv, hready]
  · intro hs e hc hsend hrecv
    unfold subscriberOpenStream
    rw [hc]
    simp [hsend, hrecv]

/-- Environment in which the handshake reply arrives but carries no
`StreamReady` payload (a close-stream notice instead). -/
def notReadyConnectPub : Ctx → Except GoError PubHandshake :=
  fun _ => .ok { sendResult := none, recvResult := .ok .closeStream,
                 conn := { sendErr := none } }

/-- Environment in which the subscribe handshake reply is not ready. -/
def notReadyConnectSub : Ctx → Except GoError SubHandshake :=
  fun _ => .ok { sendResult := none, recvResult := .ok .closeStream,
                 conn := { sendErr := none } }

/-- Witness for the amended C8 on concrete environments: a non-ready reply
gives `ErrStreamUninitialized` for both managers, and a failed first receive
gives the receive error. -/
theorem C8_amended_handshake_ready_witness :
    (publisherOpenStream initPubState notReadyConnectPub).1
      = some .streamUninitialized ∧
    (publisherOpenStream initPubState recvErrConnect).1 = some (.transport 7) ∧
    (subscriberOpenStream
        { stream := none, sentAcks := [], topics := [], fatal := none, serverID := "" }
        notReadyConnectSub).1 = some .streamUninitialized := by
  refine ⟨(C8_amended_handshake_ready initPubState
            { stream := none, sentAcks := [], topics := [], fatal := none, serverID := "" }
            notReadyConnectPub notReadyConnectSub).1 _ .closeStream rfl rfl rfl rfl,
          (C8_amended_handshake_ready initPubState
            { stream := none, sentAcks := [], topics := [], fatal := none, serverID := "" }
            recvErrConnect notReadyConnectSub).2.1 _ (.transport 7) rfl rfl rfl,
          (C8_amended_handshake_ready initPubState
            { stream := none, sentAcks := [], topics := [], fatal := none, serverID := "" }
            notReadyConnectPub notReadyConnectSub).2.2.1 _ .closeStream rfl rfl rfl rfl⟩

/-- Counterexample to C9: the Publisher handshake does not run under the
bounded `ReconnectTimeout` context — `Publisher.openStream` passes
`context.Background()`, which carries no deadline, to `client.PublishStream`,
so the claim that the handshakes of both managers use the fixed bounded timeout is
false. -/
theorem C9_counterexample :
    Ctx.bounded publisherOpenStreamCtx = false ∧
    publisherOpenStreamCtx ≠ Ctx.withTimeout reconnectTimeout := by
  refine ⟨rfl, by decide⟩

/-- C9 as amended: the post-down reconnect waits of both managers and the
Subscriber handshake use the fixed bounded `ReconnectTimeout` context, but
the Publisher handshake uses an unbounded background context; the reconnect
waits answer `ErrReconnect` exactly when the observer times out under that
context; and on a reconnect-wait or handshake failure the lifecycle loop
stores the fatal error as its final action and stops permanently — it never
retries. -/
theorem C9_amended_bounded_timeouts :
    publisherReconnectCtx = Ctx.withTimeout reconnectTimeout ∧
    subscriberReconnectCtx = Ctx.withTimeout reconnectTimeout ∧
    subscriberOpenStreamCtx = Ctx.withTimeout reconnectTimeout ∧
    publisherOpenStreamCtx = Ctx.background ∧
    (∀ (w : Ctx → Bool), publisherReconnect w
       = if w publisherReconnectCtx then none else some .reconnect) ∧
    (∀ (w : Ctx → Bool), subscriberReconnect w
       = if w subscriberReconnectCtx then none else some .reconnect) ∧
    (∀ (f : Option GoError) (sigs : List LoopSig)
       (env : List (Option GoError × Option GoError)),
       fatalIsTerminal (startLoop f sigs env).2 = true) := by
  exact ⟨rfl, rfl, rfl, rfl, fun w => rfl, fun w => rfl,
         fun f sigs env => startLoop_fatal_terminal sigs f env⟩

/-- The stream-send step of a successful `Publish` (publisher.go line 103),
as one atomic action of the publishing thread: the envelope is written to
the stream, after which the server can see the event and reply. -/
def raceSend (st : PubState) (env : EventWrapper) : PubState :=
  { st with sent := st.sent ++ [env] }

/-- The registration step of a successful `Publish` (publisher.go lines
112-115), as one atomic action of the publishing thread: a fresh
capacity-one reply channel is created and registered under the correlation
id in the pending map, under the pending-map lock. -/
def raceRegister (st : PubState) (localID : List Nat) : PubState :=
  { st with pending := keyInsert st.pending localID,
            chans := mapInsert st.chans localID Chan.fresh }

/-- Interleaving in which the receive loop processes the server reply only
after the publishing thread has registered the correlation id: send, then
register, then receive. -/
def raceReplyAfterRegister (st : PubState) (env : EventWrapper)
    (localID : List Nat) (reply : PublisherReply) : PubState :=
  (receiverHandle (raceRegister (raceSend st env) localID) reply).2

/-- Interleaving in which the server replies fast and the receive loop
processes the reply between the send and the registration: send, then
receive, then register.  This interleaving is legal because the Go code
sends on the stream before inserting into the pending map, and the receive
loop runs concurrently under a different lock. -/
def raceReplyBeforeRegister (st : PubState) (env : EventWrapper)
    (localID : List Nat) (reply : PublisherReply) : PubState :=
  raceRegister ((receiverHandle (raceSend st env) reply).2) localID

/-- A concrete envelope for the race counterexample. -/
def raceDemoEnv : EventWrapper :=
  { topicId := List.replicate 16 3, localId := List.replicate 16 1, eventData := [7] }

/-- Counterexample to C7: the correlation id is registered only after the
stream send, so the receive loop can process a fast server ack for that id
before registration — at that point the id is not in the pending map and the
ack is silently dropped (the receiver step is a no-op), and after the
registration completes the id sits in the pending map with an open, empty,
never-to-be-fulfilled reply channel.  The claim that registration precedes
any point at which the receive loop could fulfil the id is therefore false. -/
theorem C7_counterexample :
    (receiverHandle (raceSend initPubState raceDemoEnv)
        (.ack (List.replicate 16 1) 5)).2
      = raceSend initPubState raceDemoEnv ∧
    (raceReplyBeforeRegister initPubState raceDemoEnv (List.replicate 16 1)
        (.ack (List.replicate 16 1) 5)).pending = [List.replicate 16 1] ∧
    alookup (raceReplyBeforeRegister initPubState raceDemoEnv (List.replicate 16 1)
        (.ack (List.replicate 16 1) 5)).chans (List.replicate 16 1)
      = some { buf := [], closed := false } := by
  refine ⟨by decide, by decide, by decide⟩

/-- C7 as amended: `Publish` registers the correlation id with a fresh
capacity-one reply channel after the stream send succeeds and before the
channel is returned to the caller.  Hence when the receive loop processes
the server reply after the registration, the reply is delivered on the
registered channel, the channel is closed and the id removed from the
pending map; but when the server replies fast enough that the receive loop
runs between the send and the registration, the reply finds the id
unregistered and is dropped as a no-op, leaving the id pending forever with
an open empty channel. -/
theorem C7_amended_registration_after_send (st : PubState)
    (env : EventWrapper) (localID : List Nat) (committed : Nat)
    (hlen : localID.length = 16)
    (hpend : localID ∉ st.pending) :
    (alookup (raceReplyAfterRegister st env localID
        (.ack localID committed)).chans localID
       = some { buf := [PublisherReply.ack localID committed], closed := true } ∧
     localID ∉ (raceReplyAfterRegister st env localID (.ack localID committed)).pending) ∧
    ((receiverHandle (raceSend st env) (.ack localID committed)).2
       = raceSend st env ∧
     alookup (raceReplyBeforeRegister st env localID
        (.ack localID committed)).chans localID = some Chan.fresh ∧
     localID ∈ (raceReplyBeforeRegister st env localID (.ack localID committed)).pending) := by
  have hmem : localID ∈ (raceRegister (raceSend st env) localID).pending :=
    mem_keyInsert_self _ _
  have hch : alookup (raceRegister (raceSend st env) localID).chans localID
      = some Chan.fresh := alookup_mapInsert_self _ _ _
  refine ⟨⟨?_, ?_⟩, ?_, ?_, ?_⟩
  · unfold raceReplyAfterRegister receiverHandle ulidUnmarshalBinary
    simp only [hlen, if_pos, hmem, if_true]
    have := alookup_chanWriteClose_self
      (raceRegister (raceSend st env) localID).chans localID
      (.ack localID committed) Chan.fresh hch
    simpa [Chan.fresh] using this
  · unfold raceReplyAfterRegister receiverHandle ulidUnmarshalBinary
    simp only [hlen, if_pos, hmem, if_true]
    simp [mem_keyErase]
  · unfold receiverHandle ulidUnmarshalBinary
    have hnp : localID ∉ (raceSend st env).pending := hpend
    simp [hlen, hnp]
  · unfold raceReplyBeforeRegister
    unfold receiverHandle ulidUnmarshalBinary
    have hnp : localID ∉ (raceSend st env).pending := hpend
    simp only [hlen, if_pos, hnp, if_false]
    exact alookup_mapInsert_self _ _ _
  · unfold raceReplyBeforeRegister
    unfold receiverHandle ulidUnmarshalBinary
    have hnp : localID ∉ (raceSend st env).pending := hpend
    simp only [hlen, if_pos, hnp, if_false]
    exact mem_keyInsert_self _ _

/-- Witness for the amended C7 on a fresh publisher: the late-reply
interleaving delivers and closes, the fast-reply interleaving drops the ack
and leaves an open empty pending channel. -/
theorem C7_amended_registration_after_send_witness :
    (List.replicate 16 1).length = 16 ∧
    alookup (raceReplyAfterRegister initPubState raceDemoEnv (List.replicate 16 1)
        (.ack (List.replicate 16 1) 5)).chans (List.replicate 16 1)
      = some { buf := [PublisherReply.ack (List.replicate 16 1) 5], closed := true } ∧
    (List.replicate 16 1) ∈ (raceReplyBeforeRegister initPubState raceDemoEnv
        (List.replicate 16 1) (.ack (List.replicate 16 1) 5)).pending := by
  exact ⟨by decide,
    ((C7_amended_registration_after_send initPubState raceDemoEnv
      (List.replicate 16 1) 5 (by decide) (by decide)).1).1,
    ((C7_amended_registration_after_send initPubState raceDemoEnv
      (List.replicate 16 1) 5 (by decide) (by decide)).2).2.2⟩

/-- One externally visible operation on a publisher: a `Publish` call (with
the fresh correlation id drawn by `ulid.Make`) or the receive loop handling
one server message. -/
inductive PubOp where
  | publish (localID : List Nat) (topic : String) (event : List Nat)
  | deliver (msg : PublisherReply)
deriving DecidableEq

/-- Run a sequence of publisher operations from a state. -/
def runOps : PubState → List PubOp → PubState
  | st, [] => st
  | st, .publish id t ev :: rest => runOps (Publish st id t ev).2 rest
  | st, .deliver m :: rest => runOps (receiverHandle st m).2 rest

/-- The correlation ids drawn by the `Publish` calls of a trace. -/
def pubIds : List PubOp → List (List Nat)
  | [] => []
  | .publish id _ _ :: rest => id :: pubIds rest
  | .deliver _ :: rest => pubIds rest

/-- Every id in the pending map owns a reply channel that is still open,
empty and yet to be fulfilled. -/
def PendingOpen (st : PubState) : Prop :=
  ∀ id, id ∈ st.pending → alookup st.chans id = some Chan.fresh

/-- Every reply channel whose id has left the pending map was fulfilled
exactly once and then closed: it is closed and holds exactly one delivered
message, and since it is no longer pending the receive loop will never
write to it again. -/
def FulfilledOnce (st : PubState) : Prop :=
  ∀ id c, alookup st.chans id = some c → id ∉ st.pending →
    c.closed = true ∧ ∃ m, c.buf = [m]

/-- Correlation-map sanity: pending ids are unique, pending channels are
open and unwritten, and retired channels were written exactly once before
being closed. -/
def GoodPub (st : PubState) : Prop :=
  st.pending.Nodup ∧ PendingOpen st ∧ FulfilledOnce st

theorem publish_step_cases (st : PubState) (id : List Nat) (t : String)
    (ev : List Nat) :
    (Publish st id t ev).2 = st ∨
    ∃ env, (Publish st id t ev).2
      = { st with sent := st.sent ++ [env],
                  pending := keyInsert st.pending id,
                  chans := mapInsert st.chans id Chan.fresh } := by
  unfold Publish
  cases hr : resolveTopic st.topics t with
  | error e => exact Or.inl rfl
  | ok topicID =>
    cases hs : st.stream with
    | none => exact Or.inl rfl
    | some conn =>
      obtain ⟨se⟩ := conn
      cases se with
      | some e => exact Or.inl rfl
      | none =>
        exact Or.inr ⟨{ topicId := topicID, localId := id, eventData := ev }, rfl⟩

theorem receiver_step_cases (st : PubState) (m : PublisherReply) :
    (receiverHandle st m).2 = st ∨
    ∃ id, id ∈ st.pending ∧ (receiverHandle st m).2
      = { st with chans := chanWriteClose st.chans id m,
                  pending := keyErase st.pending id } := by
  unfold receiverHandle
  cases m with
  | ack id committed =>
    unfold ulidUnmarshalBinary
    by_cases hlen : id.length = 16
    · by_cases hmem : id ∈ st.pending
      · exact Or.inr ⟨id, hmem, by simp [hlen, hmem]⟩
      · left; simp [hlen, hmem]
    · left; simp [hlen]
  | nack id code emsg =>
    unfold ulidUnmarshalBinary
    by_cases hlen : id.length = 16
    · by_cases hmem : id ∈ st.pending
      · exact Or.inr ⟨id, hmem, by simp [hlen, hmem]⟩
      · left; simp [hlen, hmem]
    · left; simp [hlen]
  | ready s tl => exact Or.inl rfl
  | closeStream => exact Or.inl rfl
  | other => exact Or.inl rfl

theorem good_publish (st : PubState) (id : List Nat) (t : String)
    (ev : List Nat) (h : GoodPub st) (hfresh : alookup st.chans id = none) :
    GoodPub (Publish st id t ev).2 ∧
    (∀ j, alookup st.chans j = none → j ≠ id →
       alookup (Publish st id t ev).2.chans j = none) := by
  rcases publish_step_cases st id t ev with heq | ⟨env, heq⟩
  · rw [heq]
    exact ⟨h, fun j hj _ => hj⟩
  · rw [heq]
    rcases h with ⟨hnd, hpo, hfo⟩
    have hid_notmem : id ∉ st.pending := by
      intro hmem
      have hsome := hpo id hmem
      rw [hfresh] at hsome
      exact Option.noConfusion hsome
    have hki : keyInsert st.pending id = st.pending ++ [id] :=
      keyInsert_not_mem _ _ hid_notmem
    refine ⟨⟨?_, ?_, ?_⟩, ?_⟩
    · show (keyInsert st.pending id).Nodup
      rw [hki]
      exact nodup_append_single _ _ hnd hid_notmem
    · intro j hj
      show alookup (mapInsert st.chans id Chan.fresh) j = some Chan.fresh
      have hj2 : j ∈ st.pending ++ [id] := by
        rw [← hki]; exact hj
      rcases List.mem_append.mp hj2 with hjp | hjs
      · have hne : j ≠ id := by
          intro hc
          subst hc
          have hsome := hpo j hjp
          rw [hfresh] at hsome
          exact Option.noConfusion hsome
        rw [alookup_mapInsert_ne _ _ _ _ hne]
        exact hpo j hjp
      · rw [List.mem_singleton] at hjs
        subst hjs
        exact alookup_mapInsert_self _ _ _
    · intro j c hc hj
      have hj2 : j ∉ st.pending ++ [id] := by
        rw [← hki]; exact hj
      have hne : j ≠ id := by
        intro hc2
        exact hj2 (List.mem_append.mpr (Or.inr (by rw [hc2]; exact List.mem_singleton.mpr rfl)))
      have hc2 : alookup (mapInsert st.chans id Chan.fresh) j = some c := hc
      rw [alookup_mapInsert_ne _ _ _ _ hne] at hc2
      exact hfo j c hc2 (fun hm => hj2 (List.mem_append.mpr (Or.inl hm)))
    · intro j hj hne
      show alookup (mapInsert st.chans id Chan.fresh) j = none
      rw [alookup_mapInsert_ne _ _ _ _ hne]
      exact hj

theorem good_receiver (st : PubState) (m : PublisherReply) (h : GoodPub st) :
    GoodPub (receiverHandle st m).2 ∧
    (∀ j, alookup st.chans j = none →
       alookup (receiverHandle st m).2.chans j = none) := by
  rcases receiver_step_cases st m with heq | ⟨id, hmem, heq⟩
  · rw [heq]
    exact ⟨h, fun j hj => hj⟩
  · rw [heq]
    rcases h with ⟨hnd, hpo, hfo⟩
    refine ⟨⟨?_, ?_, ?_⟩, ?_⟩
    · show (keyErase st.pending id).Nodup
      exact keyErase_nodup _ _ hnd
    · intro j hj
      show alookup (chanWriteClose st.chans id m) j = some Chan.fresh
      have hj2 := (mem_keyErase _ _ _).mp hj
      rw [alookup_chanWriteClose_ne _ _ _ _ hj2.2]
      exact hpo j hj2.1
    · intro j c hc hj
      by_cases hji : j = id
      · subst hji
        have hcj : alookup st.chans j = some Chan.fresh := hpo j hmem
        have hwc := alookup_chanWriteClose_self st.chans j m Chan.fresh hcj
        have hc2 : alookup (chanWriteClose st.chans j m) j = some c := hc
        rw [hwc] at hc2
        injection hc2 with h3
        rw [← h3]
        exact ⟨rfl, m, by simp [Chan.fresh]⟩
      · have hc2 : alookup (chanWriteClose st.chans id m) j = some c := hc
        rw [alookup_chanWriteClose_ne _ _ _ _ hji] at hc2
        have hjp : j ∉ st.pending := by
          intro hjm
          exact hj ((mem_keyErase _ _ _).mpr ⟨hjm, hji⟩)
        exact hfo j c hc2 hjp
    · intro j hj
      show alookup (chanWriteClose st.chans id m) j = none
      exact alookup_chanWriteClose_none _ _ _ _ hj

theorem runOps_good (ops : List PubOp) :
    ∀ st, GoodPub st → (pubIds ops).Nodup →
      (∀ j, j ∈ pubIds ops → alookup st.chans j = none) →
      GoodPub (runOps st ops) := by
  induction ops with
  | nil =>
    intro st h _ _
    exact h
  | cons op rest ih =>
    intro st h hnd hfresh
    cases op with
    | publish id t ev =>
      show GoodPub (runOps (Publish st id t ev).2 rest)
      have hnd2 : (id :: pubIds rest).Nodup := by simpa [pubIds] using hnd
      have hid : alookup st.chans id = none :=
        hfresh id (by simp [pubIds])
      have hstep := good_publish st id t ev h hid
      refine ih _ hstep.1 (List.nodup_cons.mp hnd2).2 ?_
      intro j hjmem
      have hj0 : alookup st.chans j = none :=
        hfresh j (by simp [pubIds, hjmem])
      have hjne : j ≠ id := by
        intro hc
        subst hc
        exact (List.nodup_cons.mp hnd2).1 hjmem
      exact hstep.2 j hj0 hjne
    | deliver m =>
      show GoodPub (runOps (receiverHandle st m).2 rest)
      have hstep := good_receiver st m h
      refine ih _ hstep.1 (by simpa [pubIds] using hnd) ?_
      intro j hjmem
      exact hstep.2 j (hfresh j (by simpa [pubIds] using hjmem))

theorem goodPub_init : GoodPub initPubState := by
  refine ⟨List.nodup_nil, ?_, ?_⟩
  · intro id hid
    exact absurd hid (List.not_mem_nil id)
  · intro j c hc
    simp [initPubState, alookup] at hc

/-- C2: the correlation lifecycle of the publisher.  First: when the receive
loop gets an ack (or a nack) whose well-formed correlation id is in the
pending map, it delivers the whole reply on the registered channel, closes
that channel, and deletes the id from the map.  Second: a reply whose id is
not pending leaves the state untouched, so an id already fulfilled (and
hence deleted) can never be fulfilled a second time.  Third: along every
trace of `Publish` calls and handled server messages from a fresh publisher
in which the locally generated correlation ids are pairwise distinct, the
pending map always has unique keys, every pending channel is open, empty
and unwritten, and every channel whose id left the map was written exactly
one message and closed — no channel is ever written after being closed and
no id is fulfilled twice. -/
theorem C2_correlation_lifecycle :
    (∀ (st : PubState) (localID : List Nat) (committed : Nat) (c : Chan),
       localID.length = 16 → localID ∈ st.pending →
       alookup st.chans localID = some c →
       (receiverHandle st (.ack localID committed)).1 = .ok () ∧
       alookup (receiverHandle st (.ack localID committed)).2.chans localID
         = some { buf := c.buf ++ [PublisherReply.ack localID committed],
                  closed := true } ∧
       localID ∉ (receiverHandle st (.ack localID committed)).2.pending) ∧
    (∀ (st : PubState) (localID : List Nat) (code : Nat) (emsg : String) (c : Chan),
       localID.length = 16 → localID ∈ st.pending →
       alookup st.chans localID = some c →
       (receiverHandle st (.nack localID code emsg)).1 = .ok () ∧
       alookup (receiverHandle st (.nack localID code emsg)).2.chans localID
         = some { buf := c.buf ++ [PublisherReply.nack localID code emsg],
                  closed := true } ∧
       localID ∉ (receiverHandle st (.nack localID code emsg)).2.pending) ∧
    (∀ (st : PubState) (localID : List Nat) (committed : Nat),
       localID.length = 16 → localID ∉ st.pending →
       receiverHandle st (.ack localID committed) = (.ok (), st)) ∧
    (∀ ops : List PubOp, (pubIds ops).Nodup →
       GoodPub (runOps initPubState ops)) := by
  refine ⟨?_, ?_, ?_, ?_⟩
  · intro st localID committed c hlen hmem hc
    unfold receiverHandle ulidUnmarshalBinary
    simp only [hlen, if_pos, hmem, if_true]
    refine ⟨trivial, ?_, ?_⟩
    · exact alookup_chanWriteClose_self st.chans localID _ c hc
    · simp [mem_keyErase]
  · intro st localID code emsg c hlen hmem hc
    unfold receiverHandle ulidUnmarshalBinary
    simp only [hlen, if_pos, hmem, if_true]
    refine ⟨trivial, ?_, ?_⟩
    · exact alookup_chanWriteClose_self st.chans localID _ c hc
    · simp [mem_keyErase]
  · intro st localID committed hlen hmem
    unfold receiverHandle ulidUnmarshalBinary
    simp [hlen, hmem]
  · intro ops hnd
    refine runOps_good ops initPubState goodPub_init hnd ?_
    intro j hjmem
    rfl

/-- A publisher with one pending correlation and its fresh channel, and a
trace that publishes once and then delivers the matching ack. -/
def pendDemoState : PubState :=
  { initPubState with
    pending := [List.replicate 16 1],
    chans := [(List.replicate 16 1, Chan.fresh)] }

/-- Trace for the C2 witness: one publish to a ULID-addressed topic followed
by the matching ack from the server. -/
def demoOps : List PubOp :=
  [.publish (List.replicate 16 1) "01H1PA4FA9G2Y79Z5FC36CWYYJ" [9],
   .deliver (.ack (List.replicate 16 1) 5)]

/-- Witness for C2 at concrete inputs: the pending ack is delivered, closed
and deleted; an unknown ack is a no-op; the distinct-ids trace invariant
holds on the concrete trace. -/
theorem C2_correlation_lifecycle_witness :
    ((receiverHandle pendDemoState (.ack (List.replicate 16 1) 5)).1 = .ok () ∧
     alookup (receiverHandle pendDemoState
        (.ack (List.replicate 16 1) 5)).2.chans (List.replicate 16 1)
       = some { buf := [PublisherReply.ack (List.replicate 16 1) 5],
                closed := true } ∧
     (List.replicate 16 1) ∉ (receiverHandle pendDemoState
        (.ack (List.replicate 16 1) 5)).2.pending) ∧
    receiverHandle initPubState (.ack (List.replicate 16 1) 5)
      = (.ok (), initPubState) ∧
    GoodPub (runOps initPubState demoOps) := by
  have h1 := C2_correlation_lifecycle.1 pendDemoState (List.replicate 16 1) 5
    Chan.fresh (by decide) (by decide) (by decide)
  refine ⟨?_, ?_, ?_⟩
  · exact h1
  · exact C2_correlation_lifecycle.2.2.1 initPubState (List.replicate 16 1) 5
      (by decide) (by decide)
  · exact C2_correlation_lifecycle.2.2.2 demoOps (by decide)

end GoEnsign
